import Mathlib

/-!
# Verification of alih-batch core logic

A shallow embedding, in Lean 4, of the two pieces of decision logic of the
`alih-batch` repository:

* the stat cross-validation (reconciliation) of `src/scrape-stat.py`,
  function `scrape_and_upsert_player_stats`, lines 140-163;
* the stream-to-fixture matcher of `src/update-live-url.py`,
  function `match_stream_to_game`, lines 185-295, together with the
  error-handling shape of `find_live_streams` (lines 123-181), the startup
  credential check (lines 24-28 and `src/scrape-stat.py` lines 7-11) and the
  per-fixture loop of `main` (lines 346-393).

Python integers are embedded as `Int`; optional values as `Option`;
strings as Lean `String`, with character-list helpers mirroring the
Python `str` operations that the source uses (`in`, `lower`, slicing,
`replace`, `int(...)`).

The file is organised as definitions first (the embedding), then the
theorems settling the specification claims.
-/

/-! ## Definitions — Part 1: the stat reconciler (`src/scrape-stat.py`) -/

/-- One player record as assembled by `scrape_and_upsert_player_stats`
(`src/scrape-stat.py` lines 77-98): the three independently sourced
counters.  The remaining dict fields (jersey number, ranks, `updated_at`)
are not read by the reconciliation loop and are omitted. -/
structure PlayerStat where
  goals : Int
  assists : Int
  points : Int
deriving DecidableEq

/-- The per-record cross-validation body of the loop in
`scrape_and_upsert_player_stats`, `src/scrape-stat.py` lines 140-163
(the spec calls this `reconcile`).

CASE 1 (lines 147-157): if `p > g + a`, attribute the gap to the single
missing stat when exactly one of goals/assists is zero and the other
positive.  CASE 2 (lines 159-163): if afterwards `g + a > p`, set
`p = g + a`. -/
def reconcile (r : PlayerStat) : PlayerStat :=
  let r1 :=
    if r.points > r.goals + r.assists then
      if r.goals > 0 ∧ r.assists = 0 then { r with assists := r.points - r.goals }
      else if r.assists > 0 ∧ r.goals = 0 then { r with goals := r.points - r.assists }
      else r
    else r
  if r1.goals + r1.assists > r1.points then { r1 with points := r1.goals + r1.assists } else r1

/-- Modelled from the spec's words (§4.2 repair policy), for the
refinement claim C4: step 1 — if `points > goals + assists` and exactly
one of goals/assists is zero while the other is positive, set the zero
one to `points - (goals + assists)`; if both are zero (or neither is),
leave as-is.  Step 2 — recompute the sum, and if it now exceeds
`points`, set `points` to the sum. -/
def reconcile_spec_policy (r : PlayerStat) : PlayerStat :=
  let r1 :=
    if r.points > r.goals + r.assists then
      if r.goals = 0 ∧ r.assists > 0 then { r with goals := r.points - (r.goals + r.assists) }
      else if r.assists = 0 ∧ r.goals > 0 then { r with assists := r.points - (r.goals + r.assists) }
      else r
    else r
  if r1.goals + r1.assists > r1.points then { r1 with points := r1.goals + r1.assists } else r1

/-! ## Definitions — Part 2: the stream-to-fixture matcher
(`src/update-live-url.py`)

String helpers mirroring the Python `str` operations used by
`match_stream_to_game`.  Lean strings are lists of unicode scalar
values, matching Python's code-point view of `str`. -/

/-- `startsWithChars pat l` — `l` begins with `pat`. -/
def startsWithChars : List Char → List Char → Bool
  | [], _ => true
  | _ :: _, [] => false
  | c :: cs, d :: ds => c == d && startsWithChars cs ds

/-- `containsChars pat l` — `pat` occurs contiguously in `l`. -/
def containsChars (pat : List Char) : List Char → Bool
  | [] => pat.isEmpty
  | d :: ds => startsWithChars pat (d :: ds) || containsChars pat ds

/-- Python `pat in hay` on strings (substring containment; the empty
pattern is contained in everything, as in Python). -/
def strContainsSub (hay pat : String) : Bool := containsChars pat.toList hay.toList

/-- Python `str.lower()`.  `Char.toLower` lowercases ASCII letters; the
hand-curated keyword lists consist of ASCII letters (already lowercase in
the table) plus Korean/Japanese characters, which are caseless. -/
def lowerStr (s : String) : String := String.mk (s.toList.map Char.toLower)

/-- Python slicing `s[:n]` (by code points). -/
def strTake (s : String) (n : Nat) : String := String.mk (s.toList.take n)

/-- Python slicing `s[n:]` (by code points). -/
def strDrop (s : String) (n : Nat) : String := String.mk (s.toList.drop n)

/-- Python `str.replace` for a single-character pattern and replacement
(the source only replaces `'-'` by `'.'` or `'/'`). -/
def replaceChar (s : String) (c r : Char) : String :=
  String.mk (s.toList.map (fun x => if x == c then r else x))

/-- Python `int(...)` on the all-digit substrings cut out of an ISO date
(`match_date[5:7]`, `match_date[8:10]`): `"01" ↦ 1`. -/
def intOfDigits (s : String) : Int :=
  Int.ofNat (s.toList.foldl (fun n c => n * 10 + (c.toNat - 48)) 0)

/-- Days since 1970-01-01 of a civil date (proleptic Gregorian); the
standard days-from-civil computation, used to give `parseEpoch` concrete
executable semantics. -/
def daysFromCivil (y m d : Int) : Int :=
  let y' := if m ≤ 2 then y - 1 else y
  let era := (if 0 ≤ y' then y' else y' - 399) / 400
  let yoe := y' - era * 400
  let mp := (m + 9) % 12
  let doy := (153 * mp + 2) / 5 + d - 1
  let doe := yoe * 365 + yoe / 4 - yoe / 100 + doy
  era * 146097 + doe - 719468

/-- Modelled from the spec: the fixture's "scheduled start time
(timestamp with timezone)" is parsed from the stored ISO-8601 `match_at`
string by `date_parser.parse` from the third-party `python-dateutil`
library (`src/update-live-url.py` line 209), which is not part of this
repository.  Restricted to the `YYYY-MM-DDTHH:MM:SS(±HH:MM|Z)?` strings
the fixture store emits, normalised to epoch seconds (UTC). -/
def parseEpoch (s : String) : Int :=
  let y := intOfDigits (strTake s 4)
  let mo := intOfDigits (strTake (strDrop s 5) 2)
  let d := intOfDigits (strTake (strDrop s 8) 2)
  let hh := intOfDigits (strTake (strDrop s 11) 2)
  let mi := intOfDigits (strTake (strDrop s 14) 2)
  let ss := intOfDigits (strTake (strDrop s 17) 2)
  let rest := strDrop s 19
  let offset : Int :=
    if strTake rest 1 = "+" then
      intOfDigits (strTake (strDrop rest 1) 2) * 3600 + intOfDigits (strTake (strDrop rest 4) 2) * 60
    else if strTake rest 1 = "-" then
      -(intOfDigits (strTake (strDrop rest 1) 2) * 3600 + intOfDigits (strTake (strDrop rest 4) 2) * 60)
    else 0
  daysFromCivil y mo d * 86400 + hh * 3600 + mi * 60 + ss - offset

/-- One entry of the candidate list assembled by `find_live_streams`
(`src/update-live-url.py` lines 163-170): video id, free-text title, the
watch URL, the `is_live` flag, the optional `live_status` string
(`is_upcoming` / `is_live` / `was_live` / absent) and the optional
scheduled start (`release_timestamp` or `timestamp`, epoch seconds). -/
structure CandidateStream where
  vid : String
  title : String
  url : String
  is_live : Bool
  live_status : Option String
  scheduled_time : Option Int
deriving DecidableEq

/-- One row of `alih_teams` as used by the matcher
(`src/update-live-url.py` lines 85, 197-199). -/
structure TeamInfo where
  english_name : String
  name : String
deriving DecidableEq

/-- One row of `alih_schedule` as selected by `get_upcoming_games`
(`src/update-live-url.py` line 105); `game_no` and `live_url` are only
printed/filtered by the caller and are omitted. -/
structure Game where
  game_id : Int
  match_at : String
  home_alih_team_id : Int
  away_alih_team_id : Int
deriving DecidableEq

/-- The `TEAM_KEYWORDS` table, `src/update-live-url.py` lines 56-63, as
the Python read `TEAM_KEYWORDS.get(name, [])` (line 202). -/
def TEAM_KEYWORDS (english_name : String) : List String :=
  if english_name = "HL Anyang" then ["안양", "anyang", "hla", "アニャン", "ハラ", "hl안양"]
  else if english_name = "RED EAGLES HOKKAIDO" then
    ["레드이글스", "red eagles", "hokkaido", "reh", "レッドイーグルス", "北海道", "王子"]
  else if english_name = "TOHOKU FREE BLADES" then
    ["프리블레이즈", "freeblades", "tohoku", "tfb", "フリーブレイズ", "東北"]
  else if english_name = "NIKKO ICEBUCKS" then
    ["아이스벅스", "icebucks", "nikko", "nib", "アイスバックス", "日光"]
  else if english_name = "YOKOHAMA GRITS" then
    ["그리츠", "grits", "yokohama", "yok", "グリッツ", "横浜"]
  else if english_name = "STARS KOBE" then
    ["고베", "kobe", "stars", "stk", "スターズ", "神戸"]
  else []

/-- Keyword derivation of `match_stream_to_game`, lines 196-206: the
away team's `TEAM_KEYWORDS` entry, with the lowercased Korean display
name appended when present. -/
def away_keywords_of (game : Game) (team_by_id : List (Int × TeamInfo)) : List String :=
  let info := (team_by_id.lookup game.away_alih_team_id).getD ⟨"", ""⟩
  let kws := TEAM_KEYWORDS info.english_name
  if info.name ≠ "" then kws ++ [lowerStr info.name] else kws

/-- The keyword loops of `match_stream_to_game` (lines 228-229, 256-257,
289-290): some keyword of `kws`, lowercased, occurs in the lowercased
title (the source lowercases the title once into `title_lower`). -/
def kwHit (kws : List String) (title : String) : Bool :=
  kws.any (fun kw => strContainsSub (lowerStr title) (lowerStr kw))

/-- `time_tolerance = timedelta(hours=2)` (line 212), in seconds. -/
def time_tolerance : Int := 7200

/-- `abs` on the difference of two datetimes (line 224), in seconds. -/
def absInt (x : Int) : Int := if x < 0 then -x else x

/-- Tier-1 eligibility, lines 215-237: the stream carries a
`scheduled_time` (line 220 skips streams without one) and
`|scheduled_time - game_time| ≤ time_tolerance` (line 226).  When the
bound holds the source returns the stream's URL on *both* branches of
the keyword check (lines 228-237) — the keyword only selects which log
line is printed — so eligibility alone decides tier 1. -/
def tier1_eligible (game_time : Int) (s : CandidateStream) : Bool :=
  match s.scheduled_time with
  | none => false
  | some t => decide (absInt (t - game_time) ≤ time_tolerance)

/-- `is_live_or_upcoming`, lines 244-247: the `is_live` flag, or a
`live_status` of `is_upcoming` or `is_live` (an absent status reads as
the empty default and matches neither). -/
def is_live_or_upcoming (s : CandidateStream) : Bool :=
  s.is_live || (s.live_status.getD "") == "is_upcoming" || (s.live_status.getD "") == "is_live"

/-- Tier-2 eligibility, lines 240-260: flagged live/upcoming (line 249),
carrying no `scheduled_time` (lines 253-254), and bearing an away-team
keyword (lines 256-260). -/
def tier2_eligible (kws : List String) (s : CandidateStream) : Bool :=
  is_live_or_upcoming s && !s.scheduled_time.isSome && kwHit kws s.title

/-- The five date-string variants of lines 263-270, derived from
`match_at[:10]` (`YYYY-MM-DD`). -/
def date_patterns (match_at : String) : List String :=
  let match_date := strTake match_at 10
  [ replaceChar match_date '-' '.',
    replaceChar match_date '-' '/',
    replaceChar (strDrop match_date 5) '-' '.',
    replaceChar (strDrop match_date 5) '-' '/',
    toString (intOfDigits (strTake (strDrop match_date 5) 2)) ++ "月" ++
      toString (intOfDigits (strTake (strDrop match_date 8) 2)) ++ "日" ]

/-- Tier-3 eligibility, lines 272-293: some date pattern occurs in the
*raw* title (lines 279-283 check `date_pattern in title`, not the
lowercased title) and an away-team keyword occurs in the lowercased
title (lines 289-293). -/
def tier3_eligible (kws : List String) (patterns : List String) (s : CandidateStream) : Bool :=
  patterns.any (fun pat => strContainsSub s.title pat) && kwHit kws s.title

/-- `match_stream_to_game`, `src/update-live-url.py` lines 185-295: the
three-tier cascade.  Each Python `for stream in streams: ... return`
loop returns the URL of the first stream satisfying that tier's
condition, i.e. `List.find?` of the tier's eligibility predicate; the
tiers are tried in order and `None` is returned when all three fail
(line 295). -/
def match_stream_to_game (streams : List CandidateStream) (game : Game)
    (team_by_id : List (Int × TeamInfo)) : Option String :=
  let away_keywords := away_keywords_of game team_by_id
  let game_time := parseEpoch game.match_at
  match streams.find? (tier1_eligible game_time) with
  | some s => some s.url
  | none =>
    match streams.find? (tier2_eligible away_keywords) with
    | some s => some s.url
    | none =>
      match streams.find? (tier3_eligible away_keywords (date_patterns game.match_at)) with
      | some s => some s.url
      | none => none

/-! ## Definitions — Part 3: failure handling of `find_live_streams`,
the per-fixture loop of `main`, and the startup credential check. -/

/-- The possible outcomes of the `yt-dlp` invocation in
`find_live_streams` (`src/update-live-url.py` lines 140-181): a
successful run whose stdout parses to a candidate list, a subprocess
timeout (line 176), a non-zero exit status (line 143), or any other
raised exception (line 179).  Stdout-line JSON parsing is glue and a
success is modelled as carrying the parsed list directly. -/
inductive ListingOutcome where
  | success (streams : List CandidateStream)
  | timeout
  | exitFailure (code : Int)
  | failure (msg : String)
deriving DecidableEq

/-- `ListingOutcome.isFailure o` — `o` is one of the three failure
branches of `find_live_streams`. -/
def ListingOutcome.isFailure : ListingOutcome → Bool
  | .success _ => false
  | .timeout => true
  | .exitFailure _ => true
  | .failure _ => true

/-- The value `find_live_streams` returns for each outcome: the parsed
streams on success (line 174), and `[]` on non-zero exit (line 145), on
timeout (line 178) and on any other exception (line 181) — every failure
is caught inside the function. -/
def find_live_streams_result : ListingOutcome → List CandidateStream
  | .success streams => streams
  | .timeout => []
  | .exitFailure _ => []
  | .failure _ => []

/-- The `TEAM_YOUTUBE_CHANNELS` table, `src/update-live-url.py` lines
34-51, as the Python read `TEAM_YOUTUBE_CHANNELS.get(name)` (line 362);
only the channel URL is consumed by `main`. -/
def TEAM_YOUTUBE_CHANNELS (english_name : String) : Option String :=
  if english_name = "HL Anyang" then some "https://www.youtube.com/@hlanyang"
  else if english_name = "RED EAGLES HOKKAIDO" then some "https://www.youtube.com/@OjiEaglesFan"
  else if english_name = "TOHOKU FREE BLADES" then some "https://www.youtube.com/@freeblades2009"
  else if english_name = "YOKOHAMA GRITS" then some "https://www.youtube.com/@grits5937"
  else none

/-- One iteration of the fixture loop of `main`, lines 346-393,
parameterised by the outcome `listing ch` of listing channel `ch`: the
`live_url` write performed for this game, if any.  `continue` branches:
no configured channel (lines 363-365), empty candidate list (lines
373-375), no matching stream (lines 389-390). -/
def process_game (team_by_id : List (Int × TeamInfo))
    (listing : String → ListingOutcome) (game : Game) : Option (Int × String) :=
  let home_info := (team_by_id.lookup game.home_alih_team_id).getD ⟨"", ""⟩
  match TEAM_YOUTUBE_CHANNELS home_info.english_name with
  | none => none
  | some channel_url =>
    let streams := find_live_streams_result (listing channel_url)
    if streams.isEmpty then none
    else
      match match_stream_to_game streams game team_by_id with
      | some url => some (game.game_id, url)
      | none => none

/-- The fixture loop of `main` over the whole batch: the sequence of
`live_url` writes, one optional write per game, in batch order. -/
def main_updates (team_by_id : List (Int × TeamInfo))
    (listing : String → ListingOutcome) (games : List Game) : List (Int × String) :=
  games.filterMap (process_game team_by_id listing)

/-- The module-level credential check of `src/update-live-url.py` lines
24-28: `os.environ.get` of the two variables, and `raise
EnvironmentError` when either is unset or empty (Python falsiness of
`None` and `""`). -/
def startup_live (env : String → Option String) : Except String Unit :=
  if (env "SUPABASE_URL").getD "" = "" ∨ (env "SUPABASE_SERVICE_KEY").getD "" = "" then
    .error "SUPABASE_URL and SUPABASE_SERVICE_KEY must be set."
  else .ok ()

/-- The module-level credential check of `src/scrape-stat.py` lines
7-11 (same shape, key variable `SUPABASE_KEY`). -/
def startup_stat (env : String → Option String) : Except String Unit :=
  if (env "SUPABASE_URL").getD "" = "" ∨ (env "SUPABASE_KEY").getD "" = "" then
    .error "SUPABASE_URL and SUPABASE_KEY must be set."
  else .ok ()

/-- `src/update-live-url.py` as a whole: the module-level check runs at
import, before `main()`; an uncaught `EnvironmentError` terminates the
process with a nonzero status and no fixture is processed. -/
def run_live_updater (env : String → Option String)
    (team_by_id : List (Int × TeamInfo)) (listing : String → ListingOutcome)
    (games : List Game) : Except String (List (Int × String)) :=
  match startup_live env with
  | .error e => .error e
  | .ok _ => .ok (main_updates team_by_id listing games)

/-- `src/scrape-stat.py` as a whole: the module-level check runs at
import, before `scrape_and_upsert_player_stats()`; on success the
reconciliation is applied to every merged player record. -/
def run_stat_scraper (env : String → Option String)
    (records : List PlayerStat) : Except String (List PlayerStat) :=
  match startup_stat env with
  | .error e => .error e
  | .ok _ => .ok (records.map reconcile)

/-! ## Definitions — concrete scenario data used by witnesses and
counterexamples. -/

/-- A one-team `alih_teams` image: team 20 is YOKOHAMA GRITS. -/
def gritsTeams : List (Int × TeamInfo) := [(20, ⟨"YOKOHAMA GRITS", "요코하마 그리츠"⟩)]

/-- A fixture on 2026-01-13 at 10:00 UTC (epoch 1768298400), home team
10, away team 20 (GRITS). -/
def fixtureJan13 : Game := ⟨101, "2026-01-13T10:00:00+00:00", 10, 20⟩

/-- Two candidates, both within the 2-hour window of `fixtureJan13`:
the first (listed first) has no away-team keyword in its title, the
second has `GRITS`. -/
def c1_streams : List CandidateStream :=
  [⟨"a", "配信のお知らせ", "https://www.youtube.com/watch?v=a", false, none, some 1768298700⟩,
   ⟨"b", "vs YOKOHAMA GRITS LIVE", "https://www.youtube.com/watch?v=b", false, none, some 1768298400⟩]

/-- The spec §8 end-to-end scenario: one candidate five minutes from the
fixture time, one a year-old stream. -/
def c2_streams : List CandidateStream :=
  [⟨"a", "TeamA vs TeamB 1/13 10:00", "https://www.youtube.com/watch?v=a", false, none, some 1768298700⟩,
   ⟨"b", "Old stream", "https://www.youtube.com/watch?v=b", false, none, some 1735689600⟩]

/-- An ended stream without timestamp whose title carries a date string
of `fixtureJan13` but no away keyword. -/
def c6_no_kw : CandidateStream :=
  ⟨"c", "2026.01.13 highlight", "https://www.youtube.com/watch?v=c", false, some "was_live", none⟩

/-- An ended stream without timestamp whose title carries both a date
string of `fixtureJan13` and the away keyword `GRITS`. -/
def c6_hit : CandidateStream :=
  ⟨"d", "2026.01.13 vs GRITS", "https://www.youtube.com/watch?v=d", false, some "was_live", none⟩

/-! ## Theorems — Part 1: the stat reconciler -/

/-- Exhaustive branch analysis of `reconcile`: the five disjoint cases of
the two-step repair, with the exact output record in each. -/
lemma reconcile_cases (g a p : Int) :
    (p > g + a ∧ g > 0 ∧ a = 0 ∧ reconcile ⟨g, a, p⟩ = ⟨g, p - g, p⟩) ∨
    (p > g + a ∧ a > 0 ∧ g = 0 ∧ reconcile ⟨g, a, p⟩ = ⟨p - a, a, p⟩) ∨
    (p > g + a ∧ ¬(g > 0 ∧ a = 0) ∧ ¬(a > 0 ∧ g = 0) ∧ reconcile ⟨g, a, p⟩ = ⟨g, a, p⟩) ∨
    (¬(p > g + a) ∧ g + a > p ∧ reconcile ⟨g, a, p⟩ = ⟨g, a, g + a⟩) ∨
    (¬(p > g + a) ∧ ¬(g + a > p) ∧ reconcile ⟨g, a, p⟩ = ⟨g, a, p⟩) := by
  by_cases h1 : p > g + a
  · by_cases h2 : g > 0 ∧ a = 0
    · left
      refine ⟨h1, h2.1, h2.2, ?_⟩
      simp only [reconcile, if_pos h1, if_pos h2]
      have hne : ¬ (g + (p - g) > p) := by omega
      simp [hne]
    · by_cases h3 : a > 0 ∧ g = 0
      · right; left
        refine ⟨h1, h3.1, h3.2, ?_⟩
        simp only [reconcile, if_pos h1, if_neg h2, if_pos h3]
        have hne : ¬ (p - a + a > p) := by omega
        simp [hne]
      · right; right; left
        refine ⟨h1, h2, h3, ?_⟩
        simp only [reconcile, if_pos h1, if_neg h2, if_neg h3]
        have hne : ¬ (g + a > p) := by omega
        simp [hne]
  · by_cases h4 : g + a > p
    · right; right; right; left
      refine ⟨h1, h4, ?_⟩
      simp only [reconcile, if_neg h1]
      simp [h4]
    · right; right; right; right
      refine ⟨h1, h4, ?_⟩
      simp only [reconcile, if_neg h1]
      simp [h4]

/-- A record that already satisfies `points = goals + assists` is
untouched by `reconcile`. -/
lemma reconcile_of_consistent (r : PlayerStat)
    (h : r.points = r.goals + r.assists) : reconcile r = r := by
  obtain ⟨g, a, p⟩ := r
  simp only at h
  simp [reconcile, h]

/-- C3 — Reconciler idempotence: applying the two-step repair twice
gives the same goals, assists and points as applying it once, for every
player record. -/
theorem reconcile_idempotent (r : PlayerStat) :
    reconcile (reconcile r) = reconcile r := by
  obtain ⟨g, a, p⟩ := r
  rcases reconcile_cases g a p with
      ⟨h1, h2, h3, heq⟩ | ⟨h1, h2, h3, heq⟩ | ⟨h1, h2, h3, heq⟩ | ⟨h1, h2, heq⟩ | ⟨h1, h2, heq⟩
  · rw [heq]; exact reconcile_of_consistent _ (by simp)
  · rw [heq]; exact reconcile_of_consistent _ (by simp)
  · rw [heq, heq]
  · rw [heq]; exact reconcile_of_consistent _ (by simp)
  · rw [heq, heq]

/-- C4 — For every player record with non-negative counters, the code's
reconciliation coincides with the spec's two-step repair policy; in
particular `{goals:12, assists:0, points:17}` becomes
`{goals:12, assists:5, points:17}`, `{goals:0, assists:6, points:0}`
becomes `{goals:0, assists:6, points:6}`, and the consistent record
`{goals:3, assists:4, points:7}` is unchanged. -/
theorem reconcile_follows_spec_policy (g a p : Int)
    (hg : 0 ≤ g) (ha : 0 ≤ a) (hp : 0 ≤ p) :
    reconcile ⟨g, a, p⟩ = reconcile_spec_policy ⟨g, a, p⟩ ∧
    reconcile ⟨12, 0, 17⟩ = ⟨12, 5, 17⟩ ∧
    reconcile ⟨0, 6, 0⟩ = ⟨0, 6, 6⟩ ∧
    reconcile ⟨3, 4, 7⟩ = ⟨3, 4, 7⟩ := by
  refine ⟨?_, by decide, by decide, by decide⟩
  simp only [reconcile, reconcile_spec_policy]
  split_ifs <;> simp_all [PlayerStat.mk.injEq] <;> omega

/-- Witness for C4 at the concrete record `{goals:2, assists:0, points:9}`. -/
theorem reconcile_follows_spec_policy_witness :
    reconcile ⟨2, 0, 9⟩ = reconcile_spec_policy ⟨2, 0, 9⟩ ∧
    reconcile ⟨12, 0, 17⟩ = ⟨12, 5, 17⟩ ∧
    reconcile ⟨0, 6, 0⟩ = ⟨0, 6, 6⟩ ∧
    reconcile ⟨3, 4, 7⟩ = ⟨3, 4, 7⟩ :=
  reconcile_follows_spec_policy 2 0 9 (by decide) (by decide) (by decide)

/-- C5 counterexample — the record `{goals:0, assists:0, points:5}` is
inconsistent (`0 + 0 ≠ 5`), yet the reconciliation leaves it unchanged,
so the output does not satisfy `points = goals + assists`. -/
theorem reconcile_inconsistent_counterexample :
    (0 : Int) + 0 ≠ 5 ∧
    reconcile ⟨0, 0, 5⟩ = ⟨0, 0, 5⟩ ∧
    (reconcile ⟨0, 0, 5⟩).points ≠
      (reconcile ⟨0, 0, 5⟩).goals + (reconcile ⟨0, 0, 5⟩).assists := by
  decide

/-- C5 amended — for every player record with non-negative counters whose
raw values are inconsistent, either the reconciled record satisfies
`points = goals + assists`, or `points > goals + assists` with goals and
assists both zero or both positive, in which case the record is passed
through unchanged (and may remain inconsistent). -/
theorem reconcile_enforces_identity_or_skips (g a p : Int)
    (hg : 0 ≤ g) (ha : 0 ≤ a) (hp : 0 ≤ p) (h : p ≠ g + a) :
    (reconcile ⟨g, a, p⟩).points =
      (reconcile ⟨g, a, p⟩).goals + (reconcile ⟨g, a, p⟩).assists ∨
    (p > g + a ∧ ((g = 0 ∧ a = 0) ∨ (g > 0 ∧ a > 0)) ∧
      reconcile ⟨g, a, p⟩ = ⟨g, a, p⟩) := by
  rcases reconcile_cases g a p with
      ⟨h1, h2, h3, heq⟩ | ⟨h1, h2, h3, heq⟩ | ⟨h1, h2, h3, heq⟩ | ⟨h1, h2, heq⟩ | ⟨h1, h2, heq⟩
  · left; rw [heq]; simp
  · left; rw [heq]; simp
  · right; exact ⟨h1, by omega, heq⟩
  · left; rw [heq]
  · left; rw [heq]; simp only []; omega

/-- Witness for the amended C5 at the record `{goals:12, assists:0, points:17}`. -/
theorem reconcile_enforces_identity_or_skips_witness :
    (reconcile ⟨12, 0, 17⟩).points =
      (reconcile ⟨12, 0, 17⟩).goals + (reconcile ⟨12, 0, 17⟩).assists ∨
    ((17 : Int) > 12 + 0 ∧ (((12 : Int) = 0 ∧ (0 : Int) = 0) ∨ ((12 : Int) > 0 ∧ (0 : Int) > 0)) ∧
      reconcile ⟨12, 0, 17⟩ = ⟨12, 0, 17⟩) :=
  reconcile_enforces_identity_or_skips 12 0 17 (by decide) (by decide) (by decide) (by decide)

/-- C9 — the reconciliation never decreases a counter: on non-negative
inputs each of goals, assists and points in the output is at least the
corresponding input value. -/
theorem reconcile_monotone (g a p : Int)
    (hg : 0 ≤ g) (ha : 0 ≤ a) (hp : 0 ≤ p) :
    g ≤ (reconcile ⟨g, a, p⟩).goals ∧
    a ≤ (reconcile ⟨g, a, p⟩).assists ∧
    p ≤ (reconcile ⟨g, a, p⟩).points := by
  rcases reconcile_cases g a p with
      ⟨h1, h2, h3, heq⟩ | ⟨h1, h2, h3, heq⟩ | ⟨h1, h2, h3, heq⟩ | ⟨h1, h2, heq⟩ | ⟨h1, h2, heq⟩ <;>
    rw [heq] <;> simp <;> omega

/-- Witness for C9 at the record `{goals:0, assists:6, points:0}`. -/
theorem reconcile_monotone_witness :
    (0 : Int) ≤ (reconcile ⟨0, 6, 0⟩).goals ∧
    (6 : Int) ≤ (reconcile ⟨0, 6, 0⟩).assists ∧
    (0 : Int) ≤ (reconcile ⟨0, 6, 0⟩).points :=
  reconcile_monotone 0 6 0 (by decide) (by decide) (by decide)

/-! ## Theorems — Part 2: the stream-to-fixture matcher -/

/-- `List.find?` returns the first element of the list satisfying the
predicate: with everything before `s` failing and `s` succeeding, the
search returns `s`. -/
lemma find?_first {α : Type} (p : α → Bool) (l₁ : List α) (s : α) (l₂ : List α)
    (h1 : ∀ x ∈ l₁, p x = false) (h2 : p s = true) :
    (l₁ ++ s :: l₂).find? p = some s := by
  induction l₁ with
  | nil => rw [List.nil_append, List.find?_cons_of_pos _ h2]
  | cons a t ih =>
    have ha : ¬ (p a = true) := by simp [h1 a (List.mem_cons_self a t)]
    rw [List.cons_append, List.find?_cons_of_neg _ ha]
    exact ih fun x hx => h1 x (List.mem_cons_of_mem _ hx)

/-- When tier 1 selects a stream, the matcher returns that stream's URL. -/
lemma match_eq_of_tier1 (streams : List CandidateStream) (game : Game)
    (team_by_id : List (Int × TeamInfo)) (s : CandidateStream)
    (h : streams.find? (tier1_eligible (parseEpoch game.match_at)) = some s) :
    match_stream_to_game streams game team_by_id = some s.url := by
  simp only [match_stream_to_game]
  rw [h]

/-- C2 — if some candidate carries a scheduled-start timestamp within
the 2-hour tolerance of the fixture's start, the matcher returns the
stream selected by the timestamp tier: a stream whose own timestamp is
within the tolerance.  In particular the result is not `none` and the
date+keyword tier is never consulted. -/
theorem timestamp_tier_wins (streams : List CandidateStream) (game : Game)
    (team_by_id : List (Int × TeamInfo))
    (h : ∃ s ∈ streams, ∃ t, s.scheduled_time = some t ∧
        absInt (t - parseEpoch game.match_at) ≤ time_tolerance) :
    ∃ s, streams.find? (tier1_eligible (parseEpoch game.match_at)) = some s ∧
      match_stream_to_game streams game team_by_id = some s.url ∧
      ∃ t, s.scheduled_time = some t ∧
        absInt (t - parseEpoch game.match_at) ≤ time_tolerance := by
  obtain ⟨s0, hs0, t0, ht0, htol⟩ := h
  have helig : tier1_eligible (parseEpoch game.match_at) s0 = true := by
    simp [tier1_eligible, ht0, htol]
  have hsome : (streams.find? (tier1_eligible (parseEpoch game.match_at))).isSome := by
    rw [List.find?_isSome]; exact ⟨s0, hs0, helig⟩
  obtain ⟨s, hs⟩ := Option.isSome_iff_exists.mp hsome
  refine ⟨s, hs, match_eq_of_tier1 streams game team_by_id s hs, ?_⟩
  have hps := List.find?_some hs
  unfold tier1_eligible at hps
  cases hsch : s.scheduled_time with
  | none => rw [hsch] at hps; simp at hps
  | some t =>
    rw [hsch] at hps
    simp only [decide_eq_true_eq] at hps
    exact ⟨t, rfl, hps⟩

/-- Witness for C2: the spec §8 end-to-end scenario against
`fixtureJan13` — the five-minutes-away candidate is selected. -/
theorem timestamp_tier_wins_witness :
    ∃ s, c2_streams.find? (tier1_eligible (parseEpoch fixtureJan13.match_at)) = some s ∧
      match_stream_to_game c2_streams fixtureJan13 gritsTeams = some s.url ∧
      ∃ t, s.scheduled_time = some t ∧
        absInt (t - parseEpoch fixtureJan13.match_at) ≤ time_tolerance :=
  timestamp_tier_wins c2_streams fixtureJan13 gritsTeams
    ⟨⟨"a", "TeamA vs TeamB 1/13 10:00", "https://www.youtube.com/watch?v=a",
        false, none, some 1768298700⟩,
      by decide, 1768298700, rfl, by decide⟩

/-- C1 counterexample — against `fixtureJan13` (away team GRITS) both
candidates of `c1_streams` are time-eligible, the first bears no
away-team keyword and the second does, yet the matcher returns the
first (keyword-free) candidate's URL, not the keyword-bearing one. -/
theorem keyword_preference_counterexample :
    tier1_eligible (parseEpoch fixtureJan13.match_at)
        ⟨"a", "配信のお知らせ", "https://www.youtube.com/watch?v=a", false, none, some 1768298700⟩
      = true ∧
    tier1_eligible (parseEpoch fixtureJan13.match_at)
        ⟨"b", "vs YOKOHAMA GRITS LIVE", "https://www.youtube.com/watch?v=b", false, none,
          some 1768298400⟩
      = true ∧
    kwHit (away_keywords_of fixtureJan13 gritsTeams) "配信のお知らせ" = false ∧
    kwHit (away_keywords_of fixtureJan13 gritsTeams) "vs YOKOHAMA GRITS LIVE" = true ∧
    match_stream_to_game c1_streams fixtureJan13 gritsTeams =
      some "https://www.youtube.com/watch?v=a" ∧
    "https://www.youtube.com/watch?v=a" ≠ "https://www.youtube.com/watch?v=b" := by
  refine ⟨by decide, by decide, by decide, by decide, ?_, by decide⟩
  decide

/-- C1 amended — among time-eligible candidates the matcher performs no
keyword-based reordering: for every fixture and candidate list, the
first candidate (in list order) whose scheduled-start timestamp lies
within the 2-hour tolerance is returned, whether or not its title (or
any other title) contains an away-team keyword. -/
theorem first_time_eligible_wins (game : Game) (team_by_id : List (Int × TeamInfo))
    (l₁ : List CandidateStream) (s : CandidateStream) (l₂ : List CandidateStream)
    (h1 : ∀ x ∈ l₁, tier1_eligible (parseEpoch game.match_at) x = false)
    (h2 : tier1_eligible (parseEpoch game.match_at) s = true) :
    match_stream_to_game (l₁ ++ s :: l₂) game team_by_id = some s.url :=
  match_eq_of_tier1 _ game team_by_id s
    (find?_first (tier1_eligible (parseEpoch game.match_at)) l₁ s l₂ h1 h2)

/-- Witness for the amended C1: on `c1_streams` the keyword-free first
candidate is returned. -/
theorem first_time_eligible_wins_witness :
    match_stream_to_game c1_streams fixtureJan13 gritsTeams =
      some "https://www.youtube.com/watch?v=a" :=
  first_time_eligible_wins fixtureJan13 gritsTeams []
    ⟨"a", "配信のお知らせ", "https://www.youtube.com/watch?v=a", false, none, some 1768298700⟩
    [⟨"b", "vs YOKOHAMA GRITS LIVE", "https://www.youtube.com/watch?v=b", false, none,
      some 1768298400⟩]
    (by decide) (by decide)

/-- C10 — a candidate carrying a scheduled-start timestamp outside the
2-hour window is never selected by the timestamp tier nor by the
liveness+keyword tier (which considers only candidates with no
timestamp at all): only the date+keyword tier remains for it.  The last
conjunct records that any stream the liveness+keyword tier selects has
no timestamp. -/
theorem out_of_window_only_date_tier (game : Game) (team_by_id : List (Int × TeamInfo))
    (streams : List CandidateStream) (s : CandidateStream) (t : Int)
    (hs : s.scheduled_time = some t)
    (hout : time_tolerance < absInt (t - parseEpoch game.match_at)) :
    streams.find? (tier1_eligible (parseEpoch game.match_at)) ≠ some s ∧
    streams.find? (tier2_eligible (away_keywords_of game team_by_id)) ≠ some s ∧
    (∀ s', streams.find? (tier2_eligible (away_keywords_of game team_by_id)) = some s' →
      s'.scheduled_time = none) ∧
    (streams.find? (tier1_eligible (parseEpoch game.match_at)) = none →
      streams.find? (tier2_eligible (away_keywords_of game team_by_id)) = none →
      match_stream_to_game streams game team_by_id =
        (streams.find? (tier3_eligible (away_keywords_of game team_by_id)
          (date_patterns game.match_at))).map CandidateStream.url) := by
  refine ⟨?_, ?_, ?_, ?_⟩
  · intro h
    have hps := List.find?_some h
    unfold tier1_eligible at hps
    rw [hs] at hps
    simp only [decide_eq_true_eq] at hps
    omega
  · intro h
    have hps := List.find?_some h
    simp [tier2_eligible, hs] at hps
  · intro s' h
    have hps := List.find?_some h
    simp only [tier2_eligible, Bool.and_eq_true, Bool.not_eq_true'] at hps
    exact Option.not_isSome_iff_eq_none.mp (by simp [hps.1.2])
  · intro h1 h2
    simp only [match_stream_to_game]
    rw [h1, h2]
    cases streams.find? (tier3_eligible (away_keywords_of game team_by_id)
        (date_patterns game.match_at)) <;> rfl

/-- Witness for C10: the year-old candidate of `c2_streams` against
`fixtureJan13`. -/
theorem out_of_window_only_date_tier_witness :
    c2_streams.find? (tier1_eligible (parseEpoch fixtureJan13.match_at)) ≠
      some ⟨"b", "Old stream", "https://www.youtube.com/watch?v=b", false, none,
        some 1735689600⟩ ∧
    c2_streams.find? (tier2_eligible (away_keywords_of fixtureJan13 gritsTeams)) ≠
      some ⟨"b", "Old stream", "https://www.youtube.com/watch?v=b", false, none,
        some 1735689600⟩ ∧
    (∀ s', c2_streams.find? (tier2_eligible (away_keywords_of fixtureJan13 gritsTeams)) =
        some s' → s'.scheduled_time = none) ∧
    (c2_streams.find? (tier1_eligible (parseEpoch fixtureJan13.match_at)) = none →
      c2_streams.find? (tier2_eligible (away_keywords_of fixtureJan13 gritsTeams)) = none →
      match_stream_to_game c2_streams fixtureJan13 gritsTeams =
        (c2_streams.find? (tier3_eligible (away_keywords_of fixtureJan13 gritsTeams)
          (date_patterns fixtureJan13.match_at))).map CandidateStream.url) :=
  out_of_window_only_date_tier fixtureJan13 gritsTeams c2_streams
    ⟨"b", "Old stream", "https://www.youtube.com/watch?v=b", false, none, some 1735689600⟩
    1735689600 rfl (by decide)

/-- C6 — when no candidate carries a timestamp and none is flagged live
or upcoming, the matcher falls to the date+keyword tier and returns the
first candidate whose title contains one of the five date-string
variants of the fixture's date together with an away-team keyword; and
any candidate that tier selects contains both a date string and a
keyword (one alone never suffices). -/
theorem date_keyword_tier_selects (game : Game) (team_by_id : List (Int × TeamInfo))
    (l₁ : List CandidateStream) (s : CandidateStream) (l₂ : List CandidateStream)
    (hts : ∀ x ∈ l₁ ++ s :: l₂, x.scheduled_time = none)
    (hlv : ∀ x ∈ l₁ ++ s :: l₂, is_live_or_upcoming x = false)
    (h1 : ∀ x ∈ l₁,
      tier3_eligible (away_keywords_of game team_by_id) (date_patterns game.match_at) x = false)
    (hdate : (date_patterns game.match_at).any (fun pat => strContainsSub s.title pat) = true)
    (hkw : kwHit (away_keywords_of game team_by_id) s.title = true) :
    match_stream_to_game (l₁ ++ s :: l₂) game team_by_id = some s.url ∧
    (∀ x, (l₁ ++ s :: l₂).find? (tier3_eligible (away_keywords_of game team_by_id)
        (date_patterns game.match_at)) = some x →
      (date_patterns game.match_at).any (fun pat => strContainsSub x.title pat) = true ∧
      kwHit (away_keywords_of game team_by_id) x.title = true) := by
  have hfind1 : (l₁ ++ s :: l₂).find? (tier1_eligible (parseEpoch game.match_at)) = none := by
    rw [List.find?_eq_none]
    intro x hx
    simp [tier1_eligible, hts x hx]
  have hfind2 : (l₁ ++ s :: l₂).find? (tier2_eligible (away_keywords_of game team_by_id))
      = none := by
    rw [List.find?_eq_none]
    intro x hx
    simp [tier2_eligible, hlv x hx]
  have hfind3 : (l₁ ++ s :: l₂).find? (tier3_eligible (away_keywords_of game team_by_id)
      (date_patterns game.match_at)) = some s :=
    find?_first _ l₁ s l₂ h1 (by simp [tier3_eligible, hdate, hkw])
  constructor
  · simp only [match_stream_to_game]
    rw [hfind1, hfind2, hfind3]
  · intro x hx
    have hps := List.find?_some hx
    simp only [tier3_eligible, Bool.and_eq_true] at hps
    exact hps

/-- Witness for C6: against `fixtureJan13`, with a date-only title first
and a date-plus-keyword title second, the second is returned. -/
theorem date_keyword_tier_selects_witness :
    match_stream_to_game ([c6_no_kw] ++ c6_hit :: []) fixtureJan13 gritsTeams =
      some c6_hit.url ∧
    (∀ x, ([c6_no_kw] ++ c6_hit :: []).find? (tier3_eligible
        (away_keywords_of fixtureJan13 gritsTeams)
        (date_patterns fixtureJan13.match_at)) = some x →
      (date_patterns fixtureJan13.match_at).any (fun pat => strContainsSub x.title pat) = true ∧
      kwHit (away_keywords_of fixtureJan13 gritsTeams) x.title = true) :=
  date_keyword_tier_selects fixtureJan13 gritsTeams [c6_no_kw] c6_hit []
    (by decide) (by decide) (by decide) (by decide) (by decide)

/-! ## Theorems — Part 3: error handling -/

/-- C7 — when listing the candidate streams of a fixture's channel
fails (timeout, non-zero exit, or any other exception), the failure is
absorbed inside `find_live_streams` as an empty candidate list, the
fixture is skipped (it contributes no `live_url` write), and the batch
goes on: the updates of the whole batch are exactly the updates of the
games before and after the failing one. -/
theorem listing_failure_skips_fixture (team_by_id : List (Int × TeamInfo))
    (listing : String → ListingOutcome) (l₁ : List Game) (g : Game) (l₂ : List Game)
    (ch : String)
    (hch : TEAM_YOUTUBE_CHANNELS
      ((team_by_id.lookup g.home_alih_team_id).getD ⟨"", ""⟩).english_name = some ch)
    (hfail : (listing ch).isFailure = true) :
    find_live_streams_result (listing ch) = [] ∧
    process_game team_by_id listing g = none ∧
    main_updates team_by_id listing (l₁ ++ g :: l₂) =
      main_updates team_by_id listing l₁ ++ main_updates team_by_id listing l₂ := by
  have hempty : find_live_streams_result (listing ch) = [] := by
    cases ho : listing ch with
    | success streams => rw [ho] at hfail; simp [ListingOutcome.isFailure] at hfail
    | timeout => rfl
    | exitFailure code => rfl
    | failure msg => rfl
  have hproc : process_game team_by_id listing g = none := by
    unfold process_game
    simp only [hch]
    simp [hempty]
  refine ⟨hempty, hproc, ?_⟩
  simp only [main_updates, List.filterMap_append, List.filterMap_cons, hproc]

/-- Witness for C7: the home team is HL Anyang, the `yt-dlp` call for
its channel times out, and the single-game batch produces no update. -/
theorem listing_failure_skips_fixture_witness :
    find_live_streams_result ((fun _ => ListingOutcome.timeout)
      "https://www.youtube.com/@hlanyang") = [] ∧
    process_game [(10, ⟨"HL Anyang", "HL 안양"⟩)] (fun _ => ListingOutcome.timeout)
      ⟨7, "2026-01-13T10:00:00+00:00", 10, 20⟩ = none ∧
    main_updates [(10, ⟨"HL Anyang", "HL 안양"⟩)] (fun _ => ListingOutcome.timeout)
      ([] ++ ⟨7, "2026-01-13T10:00:00+00:00", 10, 20⟩ :: []) =
      main_updates [(10, ⟨"HL Anyang", "HL 안양"⟩)] (fun _ => ListingOutcome.timeout) [] ++
      main_updates [(10, ⟨"HL Anyang", "HL 안양"⟩)] (fun _ => ListingOutcome.timeout) [] :=
  listing_failure_skips_fixture [(10, ⟨"HL Anyang", "HL 안양"⟩)]
    (fun _ => ListingOutcome.timeout) [] ⟨7, "2026-01-13T10:00:00+00:00", 10, 20⟩ []
    "https://www.youtube.com/@hlanyang" (by decide) rfl

/-- C8 — per script: if that script's required credential environment
variable is unset (or empty, which Python's truthiness treats the same),
that script raises at module import, before any fixture or player record
is processed: the run produces the startup error and no update/record
list.  The two implications are independent — each script fails exactly
when one of its own two variables is missing. -/
theorem missing_credentials_fatal (env : String → Option String) :
    ((env "SUPABASE_URL").getD "" = "" ∨ (env "SUPABASE_SERVICE_KEY").getD "" = "" →
      ∀ (team_by_id : List (Int × TeamInfo)) (listing : String → ListingOutcome)
        (games : List Game),
        run_live_updater env team_by_id listing games =
          .error "SUPABASE_URL and SUPABASE_SERVICE_KEY must be set.") ∧
    ((env "SUPABASE_URL").getD "" = "" ∨ (env "SUPABASE_KEY").getD "" = "" →
      ∀ records : List PlayerStat,
        run_stat_scraper env records = .error "SUPABASE_URL and SUPABASE_KEY must be set.") := by
  constructor
  · intro hlive team_by_id listing games
    simp only [run_live_updater, startup_live, if_pos hlive]
  · intro hstat records
    simp only [run_stat_scraper, startup_stat, if_pos hstat]

/-- Witness for C8, at environments where only one script's credential
is missing: the live updater fails with `SUPABASE_URL` and
`SUPABASE_KEY` set but `SUPABASE_SERVICE_KEY` unset, and the stat
scraper fails with `SUPABASE_URL` and `SUPABASE_SERVICE_KEY` set but
`SUPABASE_KEY` unset. -/
theorem missing_credentials_fatal_witness :
    run_live_updater
        (fun v => if v = "SUPABASE_URL" then some "https://example.supabase.co"
          else if v = "SUPABASE_KEY" then some "stat-key" else none)
        [] (fun _ => ListingOutcome.timeout) [] =
      .error "SUPABASE_URL and SUPABASE_SERVICE_KEY must be set." ∧
    run_stat_scraper
        (fun v => if v = "SUPABASE_URL" then some "https://example.supabase.co"
          else if v = "SUPABASE_SERVICE_KEY" then some "live-key" else none)
        [] =
      .error "SUPABASE_URL and SUPABASE_KEY must be set." :=
  ⟨(missing_credentials_fatal
      (fun v => if v = "SUPABASE_URL" then some "https://example.supabase.co"
        else if v = "SUPABASE_KEY" then some "stat-key" else none)).1
      (Or.inr (by decide)) [] (fun _ => ListingOutcome.timeout) [],
    (missing_credentials_fatal
      (fun v => if v = "SUPABASE_URL" then some "https://example.supabase.co"
        else if v = "SUPABASE_SERVICE_KEY" then some "live-key" else none)).2
      (Or.inr (by decide)) []⟩
